import Mathlib

/-!
Verification development for the Vault Secrets Sync subsystem and the
database plugin SDK.  The sync engine itself ships outside this tree, so
its data model and operations are modelled from the specification; the
`CredentialType` embedding is translated directly from
`sdk/database/dbplugin/v5/database.go`.
-/

namespace VaultSync

/-- Modelled from the spec: destination granularity, `secret-path` or
`secret-key` (§3 Data Model, §4.3). The sync engine source is not in the
tree. -/
inductive Granularity
  | secretPath
  | secretKey
deriving DecidableEq, Repr

/-- Modelled from the spec: the placeholders supported by the name
template language (§4.3). -/
inductive Placeholder
  | DestinationType
  | DestinationName
  | NamespacePath
  | NamespaceBaseName
  | NamespaceID
  | MountPath
  | MountBaseName
  | MountAccessor
  | SecretPath
  | SecretBaseName
  | SecretKey
deriving DecidableEq, Repr

/-- Modelled from the spec: built-in pipe functions `uppercase`,
`lowercase`, `replace old new` (§4.3). -/
inductive PipeFn
  | uppercase
  | lowercase
  | replace (old new : String)
deriving DecidableEq, Repr

/-- Modelled from the spec: a template is literal text interleaved with
placeholder expressions, each optionally piped through functions (§4.3). -/
inductive TemplateElem
  | lit (s : String)
  | placeholder (p : Placeholder) (pipes : List PipeFn)
deriving DecidableEq, Repr

abbrev Template := List TemplateElem

/-- Modelled from the spec: a Destination has identity `(type, name)`,
a `secret_name_template` (unset means the default applies) and a
`granularity` (§3). -/
structure Destination where
  dtype : String
  name : String
  secret_name_template : Option Template
  granularity : Granularity
deriving DecidableEq, Repr

/-- Modelled from the spec: the identity of a source secret as seen by the
resolver — namespace, mount and secret path data (§4.3 placeholders). -/
structure SecretRef where
  namespacePath : String
  namespaceID : String
  mountPath : String
  mountAccessor : String
  secretPath : String
deriving DecidableEq, Repr

/-- The segment following the last `/` character of a path. -/
def baseName (s : String) : String :=
  ((s.splitOn "/").getLast?).getD s

/-- Modelled from the spec: semantics of a single pipe function (§4.3). -/
def applyPipe (f : PipeFn) (s : String) : String :=
  match f with
  | .uppercase => s.toUpper
  | .lowercase => s.toLower
  | .replace old new => s.replace old new

/-- Modelled from the spec: the value each placeholder resolves to, given
the Destination, the secret reference and the optional key (§4.3). -/
def placeholderValue (d : Destination) (r : SecretRef) (key : Option String) :
    Placeholder → String
  | .DestinationType => d.dtype
  | .DestinationName => d.name
  | .NamespacePath => r.namespacePath
  | .NamespaceBaseName => baseName r.namespacePath
  | .NamespaceID => r.namespaceID
  | .MountPath => r.mountPath
  | .MountBaseName => baseName r.mountPath
  | .MountAccessor => r.mountAccessor
  | .SecretPath => r.secretPath
  | .SecretBaseName => baseName r.secretPath
  | .SecretKey => key.getD ""

/-- Resolve one template element to text. -/
def resolveElem (d : Destination) (r : SecretRef) (key : Option String) :
    TemplateElem → String
  | .lit s => s
  | .placeholder p pipes =>
      pipes.foldl (fun s f => applyPipe f s) (placeholderValue d r key p)

/-- Modelled from the spec: pure template rendering — the concatenation of
the resolved elements (§4.3). -/
def resolveTemplate (d : Destination) (r : SecretRef) (key : Option String) :
    Template → String
  | [] => ""
  | e :: rest => resolveElem d r key e ++ resolveTemplate d r key rest

/-- Whether a template element references the `SecretKey` placeholder. -/
def elemUsesSecretKey : TemplateElem → Bool
  | .lit _ => false
  | .placeholder p _ => p == .SecretKey

/-- Whether a template references the `SecretKey` placeholder. -/
def templateUsesSecretKey (t : Template) : Bool :=
  t.any elemUsesSecretKey

/-- Modelled from the spec: template-validation errors (§4.3, §7). -/
inductive TemplateError
  | secretKeyNotAllowed
deriving DecidableEq, Repr

/-- Modelled from the spec: template validation — `SecretKey` resolves
only under `secret-key` granularity; referencing it under `secret-path`
granularity is a template-validation error (§4.3). -/
def validateTemplate (g : Granularity) (t : Template) : Except TemplateError Unit :=
  if g == .secretPath && templateUsesSecretKey t then
    .error .secretKeyNotAllowed
  else
    .ok ()

/-- Modelled from the spec: the default template `vault/<accessor>/<secret-path>`
used when `secret_name_template` is unset (§4.3). -/
def defaultTemplate : Template :=
  [.lit "vault/", .placeholder .MountAccessor [], .lit "/",
   .placeholder .SecretPath []]

/-- Modelled from the spec: external-name rendering for an association.
The destination's template (or the default when unset) is rendered; under
`secret-key` granularity the individual key is appended with `_` when the
template does not itself reference `SecretKey` (End-to-end scenario A). -/
def renderExternalName (d : Destination) (r : SecretRef) (key : Option String) :
    String :=
  let t := d.secret_name_template.getD defaultTemplate
  let base := resolveTemplate d r key t
  match key with
  | none => base
  | some k => if templateUsesSecretKey t then base else base ++ "_" ++ k

/-- Characters accepted by the AWS Secrets Manager destination type. -/
def awsAllowedChar (c : Char) : Bool :=
  c.isAlphanum || c == '/' || c == '_' || c == '+' || c == '=' ||
  c == '.' || c == '@' || c == '-'

/-- Modelled from the spec: per-destination-type sanitization of the
rendered name by an allow-list of valid characters (§4.3). -/
def sanitizeName (dtype : String) (s : String) : String :=
  if dtype == "aws-sm" then String.mk (s.toList.filter awsAllowedChar) else s

/-- Modelled from the spec: the sync status enumeration (§4.1, §6). -/
inductive SyncStatus
  | UNKNOWN
  | PENDING
  | SYNCED
  | UNSYNCED
  | INTERNAL_VAULT_ERROR
  | CLIENT_SIDE_ERROR
  | EXTERNAL_SERVICE_ERROR
deriving DecidableEq, Repr, Fintype

/-- The three failure statuses of the taxonomy (§7). -/
def failureStatuses : List SyncStatus :=
  [.INTERNAL_VAULT_ERROR, .CLIENT_SIDE_ERROR, .EXTERNAL_SERVICE_ERROR]

/-- Modelled from the spec: the allowed transitions of the Association
status state machine (§4.1). -/
def allowedTransition : SyncStatus → SyncStatus → Bool
  | .UNKNOWN, .PENDING => true
  | .PENDING, .SYNCED => true
  | .PENDING, .UNSYNCED => true
  | .PENDING, .INTERNAL_VAULT_ERROR => true
  | .PENDING, .CLIENT_SIDE_ERROR => true
  | .PENDING, .EXTERNAL_SERVICE_ERROR => true
  | .SYNCED, .PENDING => true
  | .UNSYNCED, .PENDING => true
  | .INTERNAL_VAULT_ERROR, .PENDING => true
  | .CLIENT_SIDE_ERROR, .PENDING => true
  | .EXTERNAL_SERVICE_ERROR, .PENDING => true
  | _, _ => false

/-- Modelled from the spec: the durable Association record — key fields,
status, optional error code, last status change timestamp, the rendered
external name and the template/granularity snapshot taken when the
external secret was last (re)created, and the synced secret version
(§3 Data Model). -/
structure StoredAssoc where
  destId : String
  mountAccessor : String
  secretPath : String
  secretKey : Option String
  status : SyncStatus
  error_code : Option String
  last_status_change : Nat
  external_name : String
  template_version : Template × Granularity
  secret_version : Option Nat
deriving DecidableEq, Repr

/-- The uniqueness key of an Association (§3). -/
def assocKeyOf (a : StoredAssoc) : String × String × String × Option String :=
  (a.destId, a.mountAccessor, a.secretPath, a.secretKey)

/-- The external destination state: an association list from external
secret name to stored payload. -/
abbrev ExtState := List (String × String)

/-- Look a name up in the external state. -/
def extLookup (ext : ExtState) (n : String) : Option String :=
  (ext.find? (fun p => p.1 == n)).map (fun p => p.2)

/-- Modelled from the spec: adapter `Put` — unconditional overwrite,
last-write-wins (§4.2). -/
def extPut (ext : ExtState) (n v : String) : ExtState :=
  (n, v) :: ext.filter (fun p => p.1 != n)

/-- Modelled from the spec: adapter `Delete` by name (§4.2). -/
def extDelete (ext : ExtState) (n : String) : ExtState :=
  ext.filter (fun p => p.1 != n)

/-- Modelled from the spec: the whole sync system state owned by the
Association Store — destinations, associations, and the external
destination contents observable through the adapter (§3, §4.4). -/
structure SyncSystem where
  dests : List Destination
  assocs : List StoredAssoc
  ext : ExtState
deriving DecidableEq, Repr

/-- Modelled from the spec: synchronous Association-creation errors (§7). -/
inductive CreateError
  | AuthorizationError
  | ConflictError
  | NotFoundError
deriving DecidableEq, Repr

/-- Find a destination by its `(type, name)` identity. -/
def findDest (sys : SyncSystem) (dt dn : String) : Option Destination :=
  sys.dests.find? (fun d => d.dtype == dt && d.name == dn)

/-- The template/granularity snapshot a (re)created association records. -/
def templateSnapshot (d : Destination) : Template × Granularity :=
  (d.secret_name_template.getD defaultTemplate, d.granularity)

/-- Modelled from the spec: `Create(destination, secretRef, granularity)`
on the Association Store. It fails with `AuthorizationError` unless the
caller's read-capability on the secret has been verified, fails with
`ConflictError` on a duplicate key, and otherwise records a new
Association snapshotting the destination's current template and
granularity; no destination write is performed at creation (§4.4, §7). -/
def createAssociation (sys : SyncSystem) (readCapVerified : Bool)
    (dt dn : String) (ref : SecretRef) (skey : Option String) (now : Nat) :
    Except CreateError StoredAssoc × SyncSystem :=
  if !readCapVerified then
    (.error .AuthorizationError, sys)
  else
    match findDest sys dt dn with
    | none => (.error .NotFoundError, sys)
    | some d =>
        let did := dt ++ "/" ++ dn
        if sys.assocs.any
            (fun a => assocKeyOf a ==
              (did, ref.mountAccessor, ref.secretPath, skey)) then
          (.error .ConflictError, sys)
        else
          let a : StoredAssoc :=
            { destId := did
              mountAccessor := ref.mountAccessor
              secretPath := ref.secretPath
              secretKey := skey
              status := .UNKNOWN
              error_code := none
              last_status_change := now
              external_name := sanitizeName d.dtype (renderExternalName d ref skey)
              template_version := templateSnapshot d
              secret_version := none }
          (.ok a, { sys with assocs := a :: sys.assocs })

/-- Modelled from the spec: `SetStatus(association, status, errorCode?)`,
which also stamps `last_status_change`; it never removes a record (§4.4). -/
def setStatus (assocs : List StoredAssoc)
    (key : String × String × String × Option String)
    (st : SyncStatus) (ec : Option String) (now : Nat) : List StoredAssoc :=
  assocs.map (fun a =>
    if assocKeyOf a == key then
      { a with status := st, error_code := ec, last_status_change := now }
    else a)

/-- Modelled from the spec: exhausting retries sets the failure status and
records `error_code` through `SetStatus`; it does not remove the
Association (§4.6). -/
def exhaustRetries (assocs : List StoredAssoc)
    (key : String × String × String × Option String)
    (failStatus : SyncStatus) (ec : String) (now : Nat) : List StoredAssoc :=
  setStatus assocs key failStatus (some ec) now

/-- Modelled from the spec: updating a Destination's
`secret_name_template` and `granularity` touches only the destination
record; associations and destination-side contents are untouched (§4.3). -/
def updateDestTemplate (sys : SyncSystem) (dt dn : String)
    (t : Option Template) (g : Granularity) : SyncSystem :=
  { sys with
    dests := sys.dests.map (fun d =>
      if d.dtype == dt && d.name == dn then
        { d with secret_name_template := t, granularity := g }
      else d) }

/-- Modelled from the spec: the forced recreate of one association —
`unsync(old name)` then `sync(new name)`, re-snapshotting the
destination's current template/granularity (§4.3, §4.8). -/
def recreateAssoc (d : Destination) (ref : SecretRef) (a : StoredAssoc)
    (payload : String) (now : Nat) (ext : ExtState) :
    StoredAssoc × ExtState :=
  let newName := sanitizeName d.dtype (renderExternalName d ref a.secretKey)
  let ext1 := extDelete ext a.external_name
  let ext2 := extPut ext1 newName payload
  ({ a with
      external_name := newName
      template_version := templateSnapshot d
      status := .SYNCED
      error_code := none
      last_status_change := now }, ext2)

/-- Modelled from the spec: the outcome one destination-adapter attempt
reports, pre-classified by the adapter into the failure taxonomy (§4.2,
§4.6). -/
inductive AttemptResult
  | ok
  | clientErr
  | externalErr
  | internalErr
deriving DecidableEq, Repr

/-- The status an attempt outcome surfaces as (§4.6, §7). -/
def classifyResult : AttemptResult → SyncStatus
  | .ok => .SYNCED
  | .clientErr => .CLIENT_SIDE_ERROR
  | .externalErr => .EXTERNAL_SERVICE_ERROR
  | .internalErr => .INTERNAL_VAULT_ERROR

/-- Modelled from the spec: client/config errors are non-retryable;
transient external and unexpected internal errors are retried (§4.6). -/
def retryableResult : AttemptResult → Bool
  | .externalErr => true
  | .internalErr => true
  | _ => false

/-- Modelled from the spec: the exponential backoff delay before a given
attempt, with configurable base and cap (§4.6). The spec's jitter is an
unspecified tuning knob (§9) and is modelled as zero, which leaves the
nominal schedule the monotonicity property speaks about. -/
def backoffDelay (base cap attempt : Nat) : Nat :=
  min (base * 2 ^ attempt) cap

/-- Modelled from the spec: the Retry Controller loop. `results i` is the
adapter outcome of attempt `i` (0-based); `budget` is the number of
retries still allowed. A success or a non-retryable error stops the loop
at once; a retryable error consumes budget; an exhausted budget surfaces
the classified failure (§4.6). Returns the surfaced status and the number
of attempts performed. -/
def runWithRetry (results : Nat → AttemptResult) :
    Nat → Nat → SyncStatus × Nat
  | budget, i =>
    let r := results i
    if r = .ok then (.SYNCED, i + 1)
    else
      match budget with
      | 0 => (classifyResult r, i + 1)
      | b + 1 =>
          if retryableResult r then runWithRetry results b (i + 1)
          else (classifyResult r, i + 1)

/-- Modelled from the spec: the drift test of the Reconciliation Scanner —
an association still `PENDING` past the grace period, in a failure status,
or whose cached `secret_version` differs from the secret's true current
version (a deleted source secret counts as drift until the association is
`UNSYNCED`) (§4.7). `cur` is the source store's current (version, value)
for the association's secret, `none` when deleted. -/
def driftDetected (now grace : Nat) (cur : Option (Nat × String))
    (a : StoredAssoc) : Bool :=
  (a.status == .PENDING && a.last_status_change + grace ≤ now)
  || (a.status == .INTERNAL_VAULT_ERROR || a.status == .CLIENT_SIDE_ERROR
      || a.status == .EXTERNAL_SERVICE_ERROR)
  || (match cur with
      | none => a.status != .UNSYNCED
      | some cv => a.secret_version != some cv.1)

/-- Modelled from the spec: the repair the scanner issues for a drifted
association — the same `sync`/`unsync` the Event Dispatcher would issue:
an `unsync` (adapter Delete) when the source secret is gone, a `sync`
(adapter Put of the current value) otherwise, followed by `SetStatus`
(§4.7, §4.5). -/
def repairAssoc (cur : Option (Nat × String)) (a : StoredAssoc) (now : Nat)
    (ext : ExtState) : StoredAssoc × ExtState :=
  match cur with
  | none =>
      ({ a with status := .UNSYNCED, error_code := none,
                last_status_change := now, secret_version := none },
       extDelete ext a.external_name)
  | some cv =>
      ({ a with status := .SYNCED, error_code := none,
                last_status_change := now, secret_version := some cv.1 },
       extPut ext a.external_name cv.2)

/-- Modelled from the spec: one full scanner sweep over a list of
associations. `getSecret acc path` is the pull API onto the versioned
source store (§4.7, §6). Returns the updated associations, the updated
external state, and the number of adapter Put/Delete calls issued. -/
def scanList (getSecret : String → String → Option (Nat × String))
    (now grace : Nat) :
    List StoredAssoc → ExtState → List StoredAssoc × ExtState × Nat
  | [], ext => ([], ext, 0)
  | a :: rest, ext =>
      let cur := getSecret a.mountAccessor a.secretPath
      if driftDetected now grace cur a then
        let pe := repairAssoc cur a now ext
        let res := scanList getSecret now grace rest pe.2
        (pe.1 :: res.1, res.2.1, res.2.2 + 1)
      else
        let res := scanList getSecret now grace rest ext
        (a :: res.1, res.2.1, res.2.2)

/-- Modelled from the spec: one run of the periodic Reconciliation
Scanner over the whole system (§4.7). Returns the new system state and
the number of destination writes (Put/Delete calls) performed. -/
def scannerRun (getSecret : String → String → Option (Nat × String))
    (now grace : Nat) (sys : SyncSystem) : SyncSystem × Nat :=
  let res := scanList getSecret now grace sys.assocs sys.ext
  ({ sys with assocs := res.1, ext := res.2.1 }, res.2.2)

end VaultSync

namespace DbPluginV5

/-- The type `CredentialType` from `sdk/database/dbplugin/v5/database.go`:
a Go `int`-backed enumeration. -/
abbrev CredentialType := Int

/-- Constant `CredentialTypePassword` (iota value 0). -/
def CredentialTypePassword : CredentialType := 0

/-- Constant `CredentialTypeRSA2048PrivateKey` (iota value 1). -/
def CredentialTypeRSA2048PrivateKey : CredentialType := 1

/-- Constant `CredentialTypeClientCertificate` (iota value 2). -/
def CredentialTypeClientCertificate : CredentialType := 2

/-- The method `func (k CredentialType) String() string` from
`sdk/database/dbplugin/v5/database.go` lines 142–153: a switch on the
three named constants with a `default` arm returning `"unknown"`. -/
def credentialTypeString (k : CredentialType) : String :=
  if k = CredentialTypePassword then "password"
  else if k = CredentialTypeRSA2048PrivateKey then "rsa_2048_private_key"
  else if k = CredentialTypeClientCertificate then "client_certificate"
  else "unknown"

end DbPluginV5

namespace VaultSync

/-! Helper lemmas about the external destination state. -/

theorem extLookup_eq_none_iff (ext : ExtState) (n : String) :
    extLookup ext n = none ↔ ∀ p ∈ ext, p.1 ≠ n := by
  simp [extLookup, List.find?_eq_none]

theorem extLookup_filter_of_none (ext : ExtState) (q : String × String → Bool)
    (n : String) (h : extLookup ext n = none) :
    extLookup (ext.filter q) n = none := by
  rw [extLookup_eq_none_iff] at h ⊢
  intro p hp
  exact h p (List.mem_of_mem_filter hp)

theorem extLookup_extDelete_self (ext : ExtState) (n : String) :
    extLookup (extDelete ext n) n = none := by
  rw [extLookup_eq_none_iff]
  intro p hp
  have hf := List.of_mem_filter hp
  simpa using hf

theorem extLookup_extPut_self (ext : ExtState) (n v : String) :
    extLookup (extPut ext n v) n = some v := by
  simp only [extPut, extLookup]
  rw [List.find?_cons_of_pos]
  · rfl
  · simp

theorem extLookup_extPut_ne (ext : ExtState) (n v m : String) (h : m ≠ n) :
    extLookup (extPut ext n v) m = extLookup (extDelete ext n) m := by
  simp only [extPut, extDelete, extLookup]
  rw [List.find?_cons_of_neg]
  simp [Ne.symm h]

/-! Shared concrete fixtures used by witnesses. -/

/-- The destination of End-to-end scenario A: `aws-sm/prod`, granularity
`secret-key`, no custom template. -/
def awsDest : Destination :=
  { dtype := "aws-sm", name := "prod", secret_name_template := none,
    granularity := .secretKey }

/-- The source secret of End-to-end scenario A: `path/to/secret1` on
mount accessor `kv_1234`. -/
def scenarioRef : SecretRef :=
  { namespacePath := "ns1/ns2", namespaceID := "RQegM",
    mountPath := "path/to/kv1", mountAccessor := "kv_1234",
    secretPath := "path/to/secret1" }

/-- C1: name resolution is deterministic and pure — for every template,
resolving twice on the same (Destination, Association source data,
optional key) yields the same string, with no other input it could depend
on. -/
theorem resolution_deterministic (d₁ d₂ : Destination) (r₁ r₂ : SecretRef)
    (k₁ k₂ : Option String) (t : Template)
    (hd : d₁ = d₂) (hr : r₁ = r₂) (hk : k₁ = k₂) :
    resolveTemplate d₁ r₁ k₁ t = resolveTemplate d₂ r₂ k₂ t
    ∧ renderExternalName d₁ r₁ k₁ = renderExternalName d₂ r₂ k₂ := by
  subst hd; subst hr; subst hk; exact ⟨rfl, rfl⟩

/-- Witness for C1 at scenario A's inputs. -/
theorem resolution_deterministic_witness :
    resolveTemplate awsDest scenarioRef (some "foo") defaultTemplate
      = resolveTemplate awsDest scenarioRef (some "foo") defaultTemplate
    ∧ renderExternalName awsDest scenarioRef (some "foo")
      = renderExternalName awsDest scenarioRef (some "foo") :=
  resolution_deterministic awsDest awsDest scenarioRef scenarioRef
    (some "foo") (some "foo") defaultTemplate rfl rfl rfl

/-- C2: every template referencing the `SecretKey` placeholder is rejected
by template validation under `secret-path` granularity. -/
theorem secretKey_rejected_under_secretPath (t : Template)
    (h : templateUsesSecretKey t = true) :
    validateTemplate .secretPath t = .error .secretKeyNotAllowed := by
  simp [validateTemplate, h]

/-- Witness for C2 on a template that is exactly the `SecretKey`
placeholder. -/
theorem secretKey_rejected_under_secretPath_witness :
    validateTemplate .secretPath [.placeholder .SecretKey []]
      = .error .secretKeyNotAllowed :=
  secretKey_rejected_under_secretPath [.placeholder .SecretKey []] (by decide)

/-- An already-synced association fixture. -/
def oldAssoc : StoredAssoc :=
  { destId := "aws-sm/prod", mountAccessor := "kv_1234",
    secretPath := "path/to/secret1", secretKey := none,
    status := .SYNCED, error_code := none, last_status_change := 0,
    external_name := "old-name",
    template_version := (defaultTemplate, .secretPath),
    secret_version := some 1 }

/-- C4: in the status state machine no status is terminal — from each of
the three failure statuses the only allowed transition is back to
PENDING, every status has an outgoing transition (so only deletion stops
an Association from transitioning), and exhausting retries records
`error_code` via `SetStatus` without removing any Association (the key
multiset of the store is untouched). -/
theorem no_terminal_status :
    (∀ e target : SyncStatus, e ∈ failureStatuses →
        (allowedTransition e target = true ↔ target = .PENDING))
    ∧ (∀ s : SyncStatus, ∃ target, allowedTransition s target = true)
    ∧ (∀ assocs key st ec now,
        (exhaustRetries assocs key st ec now).map assocKeyOf
            = assocs.map assocKeyOf
        ∧ ∀ a ∈ exhaustRetries assocs key st ec now,
            assocKeyOf a = key → a.error_code = some ec ∧ a.status = st) := by
  refine ⟨by decide, by decide, ?_⟩
  intro assocs key st ec now
  constructor
  · simp only [exhaustRetries, setStatus, List.map_map]
    apply List.map_congr_left
    intro a _
    by_cases h : (assocKeyOf a == key) = true
    · rw [Function.comp_apply, if_pos h]; rfl
    · rw [Function.comp_apply, if_neg h]
  · intro a ha hk
    simp only [exhaustRetries, setStatus, List.mem_map] at ha
    rcases ha with ⟨b, _, rfl⟩
    by_cases h : (assocKeyOf b == key) = true
    · rw [if_pos h]; exact ⟨rfl, rfl⟩
    · rw [if_neg h] at hk ⊢
      exact absurd (by simpa using hk) (by simpa using h)

/-- Witness for C4: from CLIENT_SIDE_ERROR the transition to PENDING is
allowed. -/
theorem no_terminal_status_witness :
    allowedTransition .CLIENT_SIDE_ERROR .PENDING = true :=
  (no_terminal_status.1 .CLIENT_SIDE_ERROR .PENDING (by decide)).mpr rfl

/-- C5: after a completed Recreate — Unsync of the old external name then
Sync of the new — the old name is absent at the destination and the new
name holds the written payload; the intermediate observable state (right
after the Unsync step) also lacks the old name, so at no observable point
after completion are both names present simultaneously. -/
theorem recreate_old_gone_new_present (d : Destination) (ref : SecretRef)
    (a : StoredAssoc) (payload : String) (now : Nat) (ext : ExtState)
    (hne : a.external_name
      ≠ sanitizeName d.dtype (renderExternalName d ref a.secretKey)) :
    extLookup (extDelete ext a.external_name) a.external_name = none
    ∧ extLookup (recreateAssoc d ref a payload now ext).2 a.external_name = none
    ∧ extLookup (recreateAssoc d ref a payload now ext).2
        (sanitizeName d.dtype (renderExternalName d ref a.secretKey))
        = some payload := by
  refine ⟨extLookup_extDelete_self ext a.external_name, ?_, ?_⟩
  · simp only [recreateAssoc]
    rw [extLookup_extPut_ne _ _ _ _ hne]
    exact extLookup_filter_of_none _ _ _
      (extLookup_extDelete_self ext a.external_name)
  · simp only [recreateAssoc]
    exact extLookup_extPut_self _ _ _

/-- Witness for C5 on a concrete association whose old name differs from
the recreated one. -/
theorem recreate_old_gone_new_present_witness :
    extLookup (extDelete [] oldAssoc.external_name) oldAssoc.external_name = none
    ∧ extLookup (recreateAssoc awsDest scenarioRef oldAssoc "payload" 7 []).2
        oldAssoc.external_name = none
    ∧ extLookup (recreateAssoc awsDest scenarioRef oldAssoc "payload" 7 []).2
        (sanitizeName awsDest.dtype
          (renderExternalName awsDest scenarioRef oldAssoc.secretKey))
        = some "payload" :=
  recreate_old_gone_new_present awsDest scenarioRef oldAssoc "payload" 7 []
    (by decide)

/-- C7: the Retry Controller's backoff delays are monotonically
non-decreasing per attempt and never exceed the cap, and an adapter error
classified as CLIENT_SIDE_ERROR never triggers a retry — the failure is
surfaced right after that first attempt. -/
theorem backoff_monotone_client_no_retry :
    (∀ base cap attempt : Nat,
        backoffDelay base cap attempt ≤ backoffDelay base cap (attempt + 1)
        ∧ backoffDelay base cap attempt ≤ cap)
    ∧ (∀ (results : Nat → AttemptResult) (budget i : Nat),
        results i = .clientErr →
        runWithRetry results budget i = (.CLIENT_SIDE_ERROR, i + 1)) := by
  constructor
  · intro base cap attempt
    refine ⟨min_le_min ?_ le_rfl, min_le_right _ _⟩
    exact Nat.mul_le_mul_left base (Nat.pow_le_pow_right (by norm_num)
      (Nat.le_succ attempt))
  · intro results budget i h
    cases budget with
    | zero => simp [runWithRetry, h, classifyResult]
    | succ b => simp [runWithRetry, h, retryableResult, classifyResult]

/-- Witness for C7: delays for base 2, cap 10, and a run whose first
attempt reports a client error. -/
theorem backoff_monotone_client_no_retry_witness :
    (backoffDelay 2 10 0 ≤ backoffDelay 2 10 1 ∧ backoffDelay 2 10 0 ≤ 10)
    ∧ runWithRetry (fun _ => .clientErr) 3 0 = (.CLIENT_SIDE_ERROR, 1) :=
  ⟨backoff_monotone_client_no_retry.1 2 10 0,
   backoff_monotone_client_no_retry.2 (fun _ => .clientErr) 3 0 rfl⟩

/-- C8: when `secret_name_template` is unset, names are rendered by the
default template `vault/<accessor>/<secret-path>`; under `secret-key`
granularity the key is appended, and in scenario A the secret at
`path/to/secret1` with keys `foo` and `baz` yields the two names
`vault/kv_1234/path/to/secret1_foo` and `vault/kv_1234/path/to/secret1_baz`
after sanitization. -/
theorem default_template_used (d : Destination) (r : SecretRef)
    (hd : d.secret_name_template = none) :
    (renderExternalName d r none
        = "vault/" ++ r.mountAccessor ++ "/" ++ r.secretPath)
    ∧ (∀ k, renderExternalName d r (some k)
        = "vault/" ++ r.mountAccessor ++ "/" ++ r.secretPath ++ "_" ++ k)
    ∧ sanitizeName "aws-sm" (renderExternalName awsDest scenarioRef (some "foo"))
        = "vault/kv_1234/path/to/secret1_foo"
    ∧ sanitizeName "aws-sm" (renderExternalName awsDest scenarioRef (some "baz"))
        = "vault/kv_1234/path/to/secret1_baz" := by
  have hbase : ∀ k, resolveTemplate d r k defaultTemplate
      = "vault/" ++ r.mountAccessor ++ "/" ++ r.secretPath := by
    intro k
    simp [resolveTemplate, defaultTemplate, resolveElem, placeholderValue,
      String.append_empty, String.append_assoc, List.foldl]
  refine ⟨?_, ?_, by decide, by decide⟩
  · simp [renderExternalName, hd, hbase]
  · intro k
    have h2 : renderExternalName d r (some k)
        = resolveTemplate d r (some k) defaultTemplate ++ "_" ++ k := by
      simp only [renderExternalName, hd, Option.getD_none]
      rw [if_neg (by decide : ¬ templateUsesSecretKey defaultTemplate = true)]
    rw [h2, hbase]

/-- Witness for C8 on scenario A's destination and secret. -/
theorem default_template_used_witness :
    renderExternalName awsDest scenarioRef none
      = "vault/" ++ "kv_1234" ++ "/" ++ "path/to/secret1" :=
  (default_template_used awsDest scenarioRef rfl).1

/-- The template a C9 witness switches the destination to. -/
def newT : Template := [.placeholder .SecretPath []]

/-- A one-destination system fixture. -/
def sys0 : SyncSystem := { dests := [awsDest], assocs := [], ext := [] }

theorem find?_map_update (l : List Destination) (dt dn : String)
    (t : Option Template) (g : Granularity) :
    (l.map (fun d => if d.dtype == dt && d.name == dn
        then { d with secret_name_template := t, granularity := g } else d)).find?
        (fun d => d.dtype == dt && d.name == dn)
      = (l.find? (fun d => d.dtype == dt && d.name == dn)).map
          (fun d => { d with secret_name_template := t, granularity := g }) := by
  induction l with
  | nil => rfl
  | cons d l ih =>
      simp only [List.map_cons]
      by_cases hb : (d.dtype == dt && d.name == dn) = true
      · rw [if_pos hb]
        simp only [List.find?_cons, hb, Option.map_some']
      · rw [if_neg hb]
        have hb2 : (d.dtype == dt && d.name == dn) = false := by
          simpa using hb
        simp only [List.find?_cons, hb2, ih]

theorem findDest_update (sys : SyncSystem) (dt dn : String)
    (t : Option Template) (g : Granularity) :
    findDest (updateDestTemplate sys dt dn t g) dt dn
      = (findDest sys dt dn).map
          (fun d => { d with secret_name_template := t, granularity := g }) := by
  simp only [findDest, updateDestTemplate]
  exact find?_map_update sys.dests dt dn t g

/-- C9: updating a Destination's template/granularity does not change any
existing Association (the association list, the external names, the
rendered payloads and the `template_version` snapshots are exactly those
of before, as is the destination-side state); only an Association created
after the change, or one the operator forces a recreate of, snapshots the
new template/granularity. -/
theorem template_update_frame (sys : SyncSystem) (dt dn : String)
    (t : Option Template) (g : Granularity) :
    (updateDestTemplate sys dt dn t g).assocs = sys.assocs
    ∧ (updateDestTemplate sys dt dn t g).ext = sys.ext
    ∧ (∀ ref skey now a,
        (createAssociation (updateDestTemplate sys dt dn t g) true
            dt dn ref skey now).1 = .ok a →
        a.template_version = (t.getD defaultTemplate, g))
    ∧ (∀ d ref a payload now ext2,
        findDest (updateDestTemplate sys dt dn t g) dt dn = some d →
        (recreateAssoc d ref a payload now ext2).1.template_version
          = (t.getD defaultTemplate, g)) := by
  refine ⟨rfl, rfl, ?_, ?_⟩
  · intro ref skey now a h
    simp only [createAssociation, Bool.not_true, Bool.false_eq_true,
      if_false, findDest_update] at h
    cases hfd : findDest sys dt dn with
    | none => rw [hfd] at h; simp at h
    | some d0 =>
        rw [hfd] at h
        simp only [Option.map_some'] at h
        by_cases hc : ((updateDestTemplate sys dt dn t g).assocs.any
            (fun b => assocKeyOf b ==
              (dt ++ "/" ++ dn, ref.mountAccessor, ref.secretPath, skey))) = true
        · rw [if_pos hc] at h; simp at h
        · rw [if_neg hc] at h
          simp only [Except.ok.injEq] at h
          rw [← h]
          rfl
  · intro d ref a payload now ext2 h
    rw [findDest_update] at h
    cases hfd : findDest sys dt dn with
    | none => rw [hfd] at h; simp at h
    | some d0 =>
        rw [hfd, Option.map_some', Option.some.injEq] at h
        rw [← h]
        rfl

/-- The association the C9 witness creation call produces. -/
def createdAssoc : StoredAssoc :=
  { destId := "aws-sm/prod", mountAccessor := "kv_1234",
    secretPath := "path/to/secret1", secretKey := none,
    status := .UNKNOWN, error_code := none, last_status_change := 5,
    external_name := "path/to/secret1",
    template_version := (newT, .secretPath),
    secret_version := none }

/-- Witness for C9: updating the fixture destination's template leaves
the (empty) association list untouched, and a creation performed after
the update snapshots the new template and granularity. -/
theorem template_update_frame_witness :
    (updateDestTemplate sys0 "aws-sm" "prod" (some newT)
        Granularity.secretPath).assocs = sys0.assocs
    ∧ createdAssoc.template_version
        = ((some newT).getD defaultTemplate, Granularity.secretPath) :=
  ⟨(template_update_frame sys0 "aws-sm" "prod" (some newT) .secretPath).1,
   (template_update_frame sys0 "aws-sm" "prod" (some newT) .secretPath).2.2.1
     scenarioRef none 5 createdAssoc rfl⟩

/-- C6 helper: a repaired association no longer counts as drifted against
the same source state. -/
theorem driftDetected_repair (now grace : Nat) (cur : Option (Nat × String))
    (a : StoredAssoc) (ext : ExtState) :
    driftDetected now grace cur (repairAssoc cur a now ext).1 = false := by
  cases cur <;> simp [driftDetected, repairAssoc]

/-- C6 helper: repairing keeps the association's source-secret key
fields. -/
theorem repairAssoc_key_fields (cur : Option (Nat × String))
    (a : StoredAssoc) (now : Nat) (ext : ExtState) :
    (repairAssoc cur a now ext).1.mountAccessor = a.mountAccessor
    ∧ (repairAssoc cur a now ext).1.secretPath = a.secretPath := by
  cases cur <;> exact ⟨rfl, rfl⟩

/-- C6 helper: every association a scanner sweep leaves behind is
drift-free against the unchanged source store. -/
theorem scanList_no_drift (g : String → String → Option (Nat × String))
    (now grace : Nat) (l : List StoredAssoc) (ext : ExtState) :
    ∀ a ∈ (scanList g now grace l ext).1,
      driftDetected now grace (g a.mountAccessor a.secretPath) a = false := by
  induction l generalizing ext with
  | nil => intro a ha; simp [scanList] at ha
  | cons b rest ih =>
      intro a ha
      rw [scanList] at ha
      by_cases hd : driftDetected now grace (g b.mountAccessor b.secretPath) b
        = true
      · rw [if_pos hd] at ha
        rcases List.mem_cons.mp ha with rfl | ha2
        · rw [(repairAssoc_key_fields _ b now ext).1,
            (repairAssoc_key_fields _ b now ext).2]
          exact driftDetected_repair now grace _ b ext
        · exact ih _ a ha2
      · rw [if_neg hd] at ha
        rcases List.mem_cons.mp ha with rfl | ha2
        · simpa using hd
        · exact ih _ a ha2

/-- C6 helper: a sweep over drift-free associations does nothing and
issues zero Put/Delete calls. -/
theorem scanList_of_no_drift (g : String → String → Option (Nat × String))
    (now grace : Nat) (l : List StoredAssoc) (ext : ExtState)
    (h : ∀ a ∈ l, driftDetected now grace (g a.mountAccessor a.secretPath) a
      = false) :
    scanList g now grace l ext = (l, ext, 0) := by
  induction l generalizing ext with
  | nil => rfl
  | cons b rest ih =>
      rw [scanList]
      rw [if_neg (by simp [h b (List.mem_cons_self b rest)])]
      rw [ih ext (fun a ha => h a (List.mem_cons_of_mem b ha))]

/-- C6: the Reconciliation Scanner is idempotent — for every system state
and every unchanged source store, the sweep immediately following a
completed sweep issues zero destination Put/Delete calls. -/
theorem scanner_idempotent (g : String → String → Option (Nat × String))
    (now grace : Nat) (sys : SyncSystem) :
    (scannerRun g now grace (scannerRun g now grace sys).1).2 = 0 := by
  simp only [scannerRun]
  rw [scanList_of_no_drift g now grace _ _
    (fun a ha => scanList_no_drift g now grace sys.assocs sys.ext a ha)]

/-- C3: an Association-creation request without verified read-capability
fails with `AuthorizationError`, creates no Association (the store is
unchanged) and performs no destination write (the external state is
unchanged). -/
theorem create_unverified_rejected (sys : SyncSystem) (dt dn : String)
    (ref : SecretRef) (skey : Option String) (now : Nat) :
    (createAssociation sys false dt dn ref skey now).1
        = .error .AuthorizationError
    ∧ ((createAssociation sys false dt dn ref skey now).2).assocs = sys.assocs
    ∧ ((createAssociation sys false dt dn ref skey now).2).ext = sys.ext :=
  ⟨rfl, rfl, rfl⟩

end VaultSync

namespace DbPluginV5

/-- C10: `CredentialType.String` is total — `"password"` on
`CredentialTypePassword`, `"rsa_2048_private_key"` on
`CredentialTypeRSA2048PrivateKey`, `"client_certificate"` on
`CredentialTypeClientCertificate`, and `"unknown"` on every other integer
value of the type. -/
theorem credentialTypeString_total :
    credentialTypeString CredentialTypePassword = "password"
    ∧ credentialTypeString CredentialTypeRSA2048PrivateKey
        = "rsa_2048_private_key"
    ∧ credentialTypeString CredentialTypeClientCertificate
        = "client_certificate"
    ∧ ∀ k : CredentialType, k ≠ CredentialTypePassword →
        k ≠ CredentialTypeRSA2048PrivateKey →
        k ≠ CredentialTypeClientCertificate →
        credentialTypeString k = "unknown" := by
  refine ⟨rfl, rfl, rfl, ?_⟩
  intro k h0 h1 h2
  simp [credentialTypeString, h0, h1, h2]

/-- Witness for C10 at the out-of-range value 5. -/
theorem credentialTypeString_total_witness :
    credentialTypeString 5 = "unknown" :=
  credentialTypeString_total.2.2.2 5 (by decide) (by decide) (by decide)

end DbPluginV5
